import Mathlib

/-!
Verification of the click-and-close email verifier (src/src/index.ts).

The development shallowly embeds the three pure or event-driven parts of
the program:

1. the SMTP probe session of smtpVerifyMailbox, modelled as an explicit
   state machine: the mutable variables of the closure (dataBuffer, step,
   finished, the promise resolution) become a SessionState record, and
   each socket or timer callback becomes a case of handleEvent, which
   returns the updated state plus the list of socket actions the callback
   performs, in program order;
2. the orchestrator verifyEmail, with DNS lookup and the per-host probe
   passed in as oracles, instrumented with the list of hosts actually
   probed and a flag recording whether DNS was consulted;
3. the format pre-check (the EMAIL_REGEX test), getDomain, and the MX
   sorting of resolveMx.

Reply buffers are lists of characters so that every definition is
structurally recursive and evaluable by the kernel.
-/

set_option maxHeartbeats 1000000

namespace EmailVerifier

/-- The CRLF line terminator used on the SMTP wire. -/
def crlf : String := "\r\n"

/-- The fixed probe timeout, SMTP_TIMEOUT_MS in the source. -/
def SMTP_TIMEOUT_MS : Nat := 15000

/-- The value resolved by one smtpVerifyMailbox promise:
type SmtpResult = \x7b success: boolean; code?: number; message?: string \x7d. -/
structure SmtpResult where
  success : Bool
  code : Option Nat := none
  message : Option String := none
deriving Repr, DecidableEq

/-- Configuration read from the environment: HELLO_DOMAIN and PROBE_SENDER. -/
structure ProbeConfig where
  helloDomain : String
  probeSender : String
deriving Repr, DecidableEq

/-- The defaults used when the environment sets nothing. -/
def defaultConfig : ProbeConfig :=
  { helloDomain := "example.com", probeSender := "verify@example.com" }

/-- parseCode: the line must begin with three ASCII digits
(the regex match on three leading digits); its numeric value is returned. -/
def parseCode : List Char → Option Nat
  | c0 :: c1 :: c2 :: _ =>
      if c0.isDigit && c1.isDigit && c2.isDigit then
        some (100 * (c0.toNat - 48) + 10 * (c1.toNat - 48) + (c2.toNat - 48))
      else none
  | _ => none

/-- Splitting a character buffer at each occurrence of CRLF, scanning left
to right, exactly as the split on the CRLF string does in the source. -/
def splitOnCRLF : List Char → List (List Char)
  | [] => [[]]
  | '\r' :: '\n' :: rest => [] :: splitOnCRLF rest
  | c :: rest =>
      match splitOnCRLF rest with
      | [] => [[c]]
      | p :: ps => (c :: p) :: ps

/-- Whether the buffer ends with CRLF (the framing check before parsing). -/
def endsWithCRLF (l : List Char) : Bool :=
  match l.reverse with
  | '\n' :: '\r' :: _ => true
  | _ => false

/-- The final non-empty line of the buffer: split on CRLF, drop empty
lines, take the last one (lines[lines.length - 1] in the source). -/
def lastNonEmptyLine (buf : List Char) : Option (List Char) :=
  ((splitOnCRLF buf).filter (fun l => decide (0 < l.length))).getLast?

/-- A socket or timer action performed by a callback, in program order. -/
inductive SockAct where
  | send (cmd : String)
  | endWith (d : String)
  | endConn
  | destroy
  | clearTimer
deriving Repr, DecidableEq

/-- The mutable state of one probe session: the closure variables of
smtpVerifyMailbox plus the settled value of its promise. -/
structure SessionState where
  dataBuffer : List Char
  step : Nat
  finished : Bool
  resolved : Option SmtpResult
deriving Repr, DecidableEq

/-- The state when the connection is opened. -/
def initialSession : SessionState :=
  { dataBuffer := [], step := 0, finished := false, resolved := none }

/-- Calling resolve on the session promise: the first call settles it,
any later call leaves the settled value unchanged (JS promise semantics). -/
def resolveWith (s : SessionState) (r : SmtpResult) : SessionState :=
  match s.resolved with
  | some _ => s
  | none => { s with resolved := some r }

/-- An event delivered to the session: the timer firing, a data chunk,
a socket error, or the end event of the socket. -/
inductive SockEvent where
  | timerFire
  | data (chunk : List Char)
  | sockError (msg : String)
  | sockEnd
deriving Repr, DecidableEq

/-- The step dispatch that runs once a parsed code is available, after the
buffer has been cleared: the if chain on the step counter in the data
callback.  A code at steps 0 to 2 below 400 sends the next command and
advances the step; 400 or above finishes the session, queues QUIT inside
the socket end call, and resolves a non-success result.  Step 3 always
finishes, sends QUIT, closes, and resolves with success exactly on a
2xx code. -/
def stepDispatch (cfg : ProbeConfig) (targetEmail : String) (s : SessionState)
    (code? : Option Nat) (lastLine : List Char) : SessionState × List SockAct :=
  match code? with
  | none => (s, [])
  | some code =>
    if s.step = 0 then
      if 400 ≤ code then
        (resolveWith { s with finished := true }
           { success := false, code := some code, message := some (String.mk lastLine) },
         [SockAct.clearTimer, SockAct.endWith ("QUIT" ++ crlf)])
      else
        ({ s with step := 1 }, [SockAct.send ("HELO " ++ cfg.helloDomain)])
    else if s.step = 1 then
      if 400 ≤ code then
        (resolveWith { s with finished := true }
           { success := false, code := some code, message := some (String.mk lastLine) },
         [SockAct.clearTimer, SockAct.endWith ("QUIT" ++ crlf)])
      else
        ({ s with step := 2 }, [SockAct.send ("MAIL FROM:<" ++ cfg.probeSender ++ ">")])
    else if s.step = 2 then
      if 400 ≤ code then
        (resolveWith { s with finished := true }
           { success := false, code := some code, message := some (String.mk lastLine) },
         [SockAct.clearTimer, SockAct.endWith ("QUIT" ++ crlf)])
      else
        ({ s with step := 3 }, [SockAct.send ("RCPT TO:<" ++ targetEmail ++ ">")])
    else if s.step = 3 then
      if 200 ≤ code ∧ code < 300 then
        (resolveWith { s with finished := true }
           { success := true, code := some code, message := some (String.mk lastLine) },
         [SockAct.clearTimer, SockAct.send ("QUIT"), SockAct.endConn])
      else if 500 ≤ code ∧ code < 600 then
        (resolveWith { s with finished := true }
           { success := false, code := some code, message := some (String.mk lastLine) },
         [SockAct.clearTimer, SockAct.send ("QUIT"), SockAct.endConn])
      else
        (resolveWith { s with finished := true }
           { success := false, code := some code, message := some (String.mk lastLine) },
         [SockAct.clearTimer, SockAct.send ("QUIT"), SockAct.endConn])
    else (s, [])

/-- The data callback: append the chunk; wait unless the buffer ends with
CRLF; otherwise take the last non-empty line, clear the buffer, and
dispatch on the parsed code.  When every CRLF-separated line is empty the
source dereferences an undefined last line and the callback dies by a
thrown TypeError before clearing the buffer; the state returned here is
the state as of that throw (buffer extended, nothing else changed, no
socket action performed, and the promise untouched).  Note the callback
has no finished guard. -/
def onData (cfg : ProbeConfig) (targetEmail : String) (s : SessionState)
    (chunk : List Char) : SessionState × List SockAct :=
  if endsWithCRLF (s.dataBuffer ++ chunk) = false then
    ({ s with dataBuffer := s.dataBuffer ++ chunk }, [])
  else
    match lastNonEmptyLine (s.dataBuffer ++ chunk) with
    | none => ({ s with dataBuffer := s.dataBuffer ++ chunk }, [])
    | some lastLine =>
        stepDispatch cfg targetEmail { s with dataBuffer := [] } (parseCode lastLine) lastLine

/-- One event of the session: the four callbacks registered by
smtpVerifyMailbox.  The timer, error and end callbacks are guarded by the
finished flag; the data callback is not. -/
def handleEvent (cfg : ProbeConfig) (targetEmail : String) (s : SessionState) :
    SockEvent → SessionState × List SockAct
  | SockEvent.timerFire =>
      if s.finished then (s, [])
      else
        (resolveWith { s with finished := true }
           { success := false, code := none, message := some ("Timeout") },
         [SockAct.destroy])
  | SockEvent.data chunk => onData cfg targetEmail s chunk
  | SockEvent.sockError msg =>
      if s.finished then (s, [])
      else
        (resolveWith { s with finished := true }
           { success := false, code := none, message := some msg },
         [SockAct.clearTimer])
  | SockEvent.sockEnd =>
      if s.finished then (s, [])
      else
        (resolveWith { s with finished := true }
           { success := false, code := none, message := some ("Connection ended unexpectedly") },
         [SockAct.clearTimer])

/-- Running a list of events through the session, concatenating the
actions each callback performs. -/
def runEvents (cfg : ProbeConfig) (targetEmail : String) :
    SessionState → List SockEvent → SessionState × List SockAct
  | s, [] => (s, [])
  | s, e :: es =>
      ((runEvents cfg targetEmail (handleEvent cfg targetEmail s e).1 es).1,
       (handleEvent cfg targetEmail s e).2 ++
         (runEvents cfg targetEmail (handleEvent cfg targetEmail s e).1 es).2)

/-- The wire effect of one action given whether the write side of the
socket is already closed: a send transmits its command plus CRLF only on
an open socket, an end call with data transmits that data only on an open
socket and closes it, a plain end or destroy closes it, and clearing the
timer touches nothing. -/
def actEffect (ended : Bool) : SockAct → Bool × List String
  | SockAct.send cmd => (ended, if ended then [] else [cmd ++ crlf])
  | SockAct.endWith d => (true, if ended then [] else [d])
  | SockAct.endConn => (true, [])
  | SockAct.destroy => (true, [])
  | SockAct.clearTimer => (ended, [])

/-- The strings actually transmitted by a list of actions, starting from
the given write-side state. -/
def transmittedFrom (ended : Bool) : List SockAct → List String
  | [] => []
  | a :: rest => (actEffect ended a).2 ++ transmittedFrom (actEffect ended a).1 rest

/-- The write-side state after a list of actions. -/
def endedAfter (ended : Bool) : List SockAct → Bool
  | [] => ended
  | a :: rest => endedAfter (actEffect ended a).1 rest

/-- The strings transmitted by a session that starts with an open socket. -/
def transmitted (acts : List SockAct) : List String :=
  transmittedFrom false acts

/-- One MX record: exchange host and priority. -/
structure MxRecord where
  exchange : String
  priority : Nat
deriving Repr, DecidableEq

/-- Insertion of a record into a list sorted by ascending priority; ties
keep the earlier record first, matching the stable comparator sort of the
source. -/
def insertByPriority (x : MxRecord) : List MxRecord → List MxRecord
  | [] => [x]
  | y :: ys =>
      if x.priority ≤ y.priority then x :: y :: ys
      else y :: insertByPriority x ys

/-- The ascending-priority sort applied by resolveMx before resolving. -/
def sortMx : List MxRecord → List MxRecord
  | [] => []
  | x :: xs => insertByPriority x (sortMx xs)

/-- resolveMx: the raw DNS answer either errors, is empty (rejected with
the no-records message), or is resolved after sorting by priority. -/
def resolveMxModel (lookup : Except String (List MxRecord)) :
    Except String (List MxRecord) :=
  match lookup with
  | Except.error e => Except.error e
  | Except.ok [] => Except.error ("No MX records")
  | Except.ok addrs => Except.ok (sortMx addrs)

/-- The final classification values of verifyEmail. -/
inductive VStatus where
  | deliverable
  | undeliverable
  | unknownStatus
  | noMx
  | invalidFormat
deriving Repr, DecidableEq

/-- The record returned by verifyEmail, with its optional fields. -/
structure VerificationResult where
  status : VStatus
  valid : Bool
  smtpHostTried : Option String := none
  smtpCode : Option Nat := none
  smtpMessage : Option String := none
  reason : Option String := none
deriving Repr, DecidableEq

/-- The deliverable test of the loop body:
result.success and result.code truthy and 200 <= code < 300.  A code of
zero is falsy in the source, hence the explicit inequality. -/
def isDeliverableHit (r : SmtpResult) : Bool :=
  r.success &&
    (match r.code with
     | none => false
     | some c => (c != 0) && decide (200 ≤ c) && decide (c < 300))

/-- The undeliverable test of the loop body:
result.code truthy and 500 <= code < 600. -/
def isUndeliverableHit (r : SmtpResult) : Bool :=
  match r.code with
  | none => false
  | some c => (c != 0) && decide (500 ≤ c) && decide (c < 600)

/-- The result returned on the first deliverable hit. -/
def mkDeliverable (host : String) (r : SmtpResult) : VerificationResult :=
  { status := VStatus.deliverable, valid := true, smtpHostTried := some host,
    smtpCode := r.code, smtpMessage := r.message }

/-- The result returned on the first undeliverable hit. -/
def mkUndeliverable (host : String) (r : SmtpResult) : VerificationResult :=
  { status := VStatus.undeliverable, valid := false, smtpHostTried := some host,
    smtpCode := r.code, smtpMessage := r.message }

/-- The result returned when the MX list is exhausted. -/
def unknownResult : VerificationResult :=
  { status := VStatus.unknownStatus, valid := false,
    reason := some ("All MX hosts returned temporary or ambiguous responses") }

/-- The result returned on a format failure. -/
def invalidFormatResult : VerificationResult :=
  { status := VStatus.invalidFormat, valid := false,
    reason := some ("Invalid email syntax") }

/-- The result returned when MX resolution rejects. -/
def noMxResult (msg : String) : VerificationResult :=
  { status := VStatus.noMx, valid := false,
    reason := some ("Domain has no MX: " ++ msg) }

/-- The per-host loop of verifyEmail, with the probe passed as an oracle
from host name to the outcome its session resolves.  Returns the result
together with the list of hosts actually probed, in probe order. -/
def tryMxHosts (probe : String → SmtpResult) :
    List MxRecord → VerificationResult × List String
  | [] => (unknownResult, [])
  | mx :: rest =>
      if isDeliverableHit (probe mx.exchange) then
        (mkDeliverable mx.exchange (probe mx.exchange), [mx.exchange])
      else if isUndeliverableHit (probe mx.exchange) then
        (mkUndeliverable mx.exchange (probe mx.exchange), [mx.exchange])
      else
        ((tryMxHosts probe rest).1, mx.exchange :: (tryMxHosts probe rest).2)

/-- Splitting a character list at every occurrence of one separator
character, as the split on the at-sign does in the source. -/
def splitOnChar (sep : Char) : List Char → List (List Char)
  | [] => [[]]
  | c :: cs =>
      if c = sep then [] :: splitOnChar sep cs
      else
        match splitOnChar sep cs with
        | [] => [[c]]
        | p :: ps => (c :: p) :: ps

/-- The whitespace class of the source regex (JavaScript backslash-s):
tab, line feed, vertical tab, form feed, carriage return, space, and the
Unicode space characters. -/
def isSpaceJS (c : Char) : Bool :=
  [9, 10, 11, 12, 13, 32, 160, 5760, 8192, 8193, 8194, 8195, 8196, 8197,
   8198, 8199, 8200, 8201, 8202, 8232, 8233, 8239, 8287, 12288,
   65279].contains c.toNat

/-- A character admitted by the bracket class of the regex: neither
whitespace nor the at-sign. -/
def isAtomChar (c : Char) : Bool :=
  !(isSpaceJS c) && c != '@'

/-- Whether the list has a dot at some position other than the first and
the last, i.e. a dot with at least one character on each side. -/
def hasInnerDot (l : List Char) : Bool :=
  match l with
  | [] => false
  | _ :: rest => (rest.dropLast).contains '.'

/-- isEmailFormatValid: the test of the source regex, one run of
non-space non-at characters, an at-sign, then non-space non-at characters
containing a dot with at least one such character before and after it.
A string matches exactly when splitting at every at-sign yields two
parts, the first non-empty and atom-only, the second atom-only with an
inner dot. -/
def isEmailFormatValid (email : String) : Bool :=
  match splitOnChar '@' email.toList with
  | [localPart, domainPart] =>
      decide (0 < localPart.length) && localPart.all isAtomChar &&
        domainPart.all isAtomChar && hasInnerDot domainPart
  | _ => false

/-- getDomain: the element at index one of the split at the at-sign,
undefined (none) when the split has fewer than two parts. -/
def getDomain (email : String) : Option String :=
  ((splitOnChar '@' email.toList)[1]?).map String.mk

/-- The observable trace of one verifyEmail call: its returned result,
whether DNS was consulted, and which hosts were probed over SMTP. -/
structure VerifyTrace where
  result : VerificationResult
  dnsQueried : Bool
  probedHosts : List String
deriving Repr, DecidableEq

/-- verifyEmail with DNS and the SMTP probe passed as oracles.  The DNS
oracle receives exactly the value getDomain produces, as the source
passes the possibly-undefined index result straight to dns.resolveMx. -/
def verifyEmailModel (dnsLookup : Option String → Except String (List MxRecord))
    (probe : String → SmtpResult) (email : String) : VerifyTrace :=
  if isEmailFormatValid email = false then
    { result := invalidFormatResult, dnsQueried := false, probedHosts := [] }
  else
    match resolveMxModel (dnsLookup (getDomain email)) with
    | Except.error msg =>
        { result := noMxResult msg, dnsQueried := true, probedHosts := [] }
    | Except.ok mxs =>
        { result := (tryMxHosts probe mxs).1, dnsQueried := true,
          probedHosts := (tryMxHosts probe mxs).2 }

/-- The command that step dispatch sends when the reply at the given step
succeeds: HELO after the greeting, MAIL FROM after the HELO reply, RCPT
TO after the MAIL reply. -/
def nextCommand (cfg : ProbeConfig) (targetEmail : String) : Nat → String
  | 0 => "HELO " ++ cfg.helloDomain
  | 1 => "MAIL FROM:<" ++ cfg.probeSender ++ ">"
  | 2 => "RCPT TO:<" ++ targetEmail ++ ">"
  | _ => ""

/-- The outcome resolved when a reply at steps 0 to 2 carries a code of
400 or more. -/
def earlyFailResult (c : Nat) (lastLine : List Char) : SmtpResult :=
  { success := false, code := some c, message := some (String.mk lastLine) }

/-- An outcome the orchestrator treats as Accepted: success with a code
in the 2xx band. -/
def delivOutcome (r : SmtpResult) : Prop :=
  r.success = true ∧ ∃ c, r.code = some c ∧ 200 ≤ c ∧ c < 300

/-- An outcome the orchestrator treats as Rejected: a code in the 5xx
band. -/
def undelivOutcome (r : SmtpResult) : Prop :=
  ∃ c, r.code = some c ∧ 500 ≤ c ∧ c < 600

/-- A concrete probe oracle for instances: the host mx1 answers 450 at
the decision point (inconclusive), every other host answers 550
(rejected), mirroring the two-host scenario of the testable
properties. -/
def probeInconclusiveThenReject (h : String) : SmtpResult :=
  if h = "mx1" then
    { success := false, code := some 450, message := some ("450 try later") }
  else
    { success := false, code := some 550, message := some ("550 no such user") }

/-! Helper lemmas about the session state machine. -/

theorem resolveWith_of_some (s : SessionState) (r r' : SmtpResult)
    (h : s.resolved = some r) : resolveWith s r' = s := by
  unfold resolveWith
  rw [h]

theorem resolveWith_of_none (s : SessionState) (r : SmtpResult)
    (h : s.resolved = none) : resolveWith s r = { s with resolved := some r } := by
  unfold resolveWith
  rw [h]

theorem stepDispatch_resolved_of_some (cfg : ProbeConfig) (t : String)
    (s : SessionState) (code? : Option Nat) (lastLine : List Char) (r : SmtpResult)
    (h : s.resolved = some r) :
    (stepDispatch cfg t s code? lastLine).1.resolved = some r := by
  unfold stepDispatch
  rcases code? with _ | c
  · exact h
  · split_ifs <;> simp [resolveWith, h] <;> split <;> rfl

theorem handleEvent_resolved_of_some (cfg : ProbeConfig) (t : String)
    (s : SessionState) (e : SockEvent) (r : SmtpResult)
    (h : s.resolved = some r) :
    (handleEvent cfg t s e).1.resolved = some r := by
  cases e with
  | timerFire =>
      by_cases hf : s.finished <;> simp [handleEvent, hf, resolveWith, h]
  | data chunk =>
      show (onData cfg t s chunk).1.resolved = some r
      unfold onData
      split_ifs with hc
      · exact h
      · rcases hll : lastNonEmptyLine (s.dataBuffer ++ chunk) with _ | lastLine
        · exact h
        · exact stepDispatch_resolved_of_some cfg t _ _ _ r h
  | sockError m =>
      by_cases hf : s.finished <;> simp [handleEvent, hf, resolveWith, h]
  | sockEnd =>
      by_cases hf : s.finished <;> simp [handleEvent, hf, resolveWith, h]

theorem runEvents_resolved_of_some (cfg : ProbeConfig) (t : String)
    (s : SessionState) (es : List SockEvent) (r : SmtpResult)
    (h : s.resolved = some r) :
    (runEvents cfg t s es).1.resolved = some r := by
  induction es generalizing s with
  | nil => exact h
  | cons e es ih =>
      simp only [runEvents]
      exact ih _ (handleEvent_resolved_of_some cfg t s e r h)

theorem handleEvent_guarded_noop (cfg : ProbeConfig) (t : String)
    (s : SessionState) (hfin : s.finished = true) :
    handleEvent cfg t s SockEvent.timerFire = (s, []) ∧
    (∀ m, handleEvent cfg t s (SockEvent.sockError m) = (s, [])) ∧
    handleEvent cfg t s SockEvent.sockEnd = (s, []) := by
  refine ⟨?_, fun m => ?_, ?_⟩ <;> simp [handleEvent, hfin]

theorem onData_framed (cfg : ProbeConfig) (t : String) (s : SessionState)
    (chunk lastLine : List Char)
    (hend : endsWithCRLF (s.dataBuffer ++ chunk) = true)
    (hlast : lastNonEmptyLine (s.dataBuffer ++ chunk) = some lastLine) :
    handleEvent cfg t s (SockEvent.data chunk) =
      stepDispatch cfg t { s with dataBuffer := [] } (parseCode lastLine) lastLine := by
  show onData cfg t s chunk = _
  simp [onData, hend, hlast]

theorem stepDispatch_early_fail (cfg : ProbeConfig) (t : String) (s : SessionState)
    (c : Nat) (lastLine : List Char) (hstep : s.step ≤ 2) (hc : 400 ≤ c) :
    stepDispatch cfg t s (some c) lastLine =
      (resolveWith { s with finished := true } (earlyFailResult c lastLine),
       [SockAct.clearTimer, SockAct.endWith ("QUIT" ++ crlf)]) := by
  have h3 : s.step = 0 ∨ s.step = 1 ∨ s.step = 2 := by omega
  unfold stepDispatch earlyFailResult
  rcases h3 with h | h | h <;> simp [h, hc]

theorem stepDispatch_advance (cfg : ProbeConfig) (t : String) (s : SessionState)
    (c : Nat) (lastLine : List Char) (hstep : s.step ≤ 2) (hc : c < 400) :
    stepDispatch cfg t s (some c) lastLine =
      ({ s with step := s.step + 1 }, [SockAct.send (nextCommand cfg t s.step)]) := by
  have h3 : s.step = 0 ∨ s.step = 1 ∨ s.step = 2 := by omega
  have hc' : ¬ 400 ≤ c := by omega
  unfold stepDispatch nextCommand
  rcases h3 with h | h | h <;> simp [h, hc']

theorem stepDispatch_decide_point (cfg : ProbeConfig) (t : String) (s : SessionState)
    (c : Nat) (lastLine : List Char) (hstep : s.step = 3) :
    stepDispatch cfg t s (some c) lastLine =
      (resolveWith { s with finished := true }
         { success := decide (200 ≤ c) && decide (c < 300), code := some c,
           message := some (String.mk lastLine) },
       [SockAct.clearTimer, SockAct.send ("QUIT"), SockAct.endConn]) := by
  unfold stepDispatch
  rw [hstep]
  by_cases h2 : 200 ≤ c ∧ c < 300
  · simp [h2, h2.1, h2.2]
  · have hd : (decide (200 ≤ c) && decide (c < 300)) = false := by
      by_cases hA : 200 ≤ c
      · have hB : ¬ c < 300 := fun hB => h2 ⟨hA, hB⟩
        simp [hA, hB]
      · simp [hA]
    by_cases h5 : 500 ≤ c ∧ c < 600 <;> simp [h2, h5, hd]

theorem transmittedFrom_true (l : List SockAct) : transmittedFrom true l = [] := by
  induction l with
  | nil => rfl
  | cons a rest ih =>
      cases a <;> simp [transmittedFrom, actEffect, ih]

/-! Helper lemmas about the orchestrator fold. -/

theorem isDeliverableHit_iff (r : SmtpResult) :
    isDeliverableHit r = true ↔ delivOutcome r := by
  rcases r with ⟨succ, code, msg⟩
  rcases code with _ | c <;>
    simp [isDeliverableHit, delivOutcome, Bool.and_eq_true, decide_eq_true_eq]
  intros
  omega

theorem isUndeliverableHit_iff (r : SmtpResult) :
    isUndeliverableHit r = true ↔ undelivOutcome r := by
  rcases r with ⟨succ, code, msg⟩
  rcases code with _ | c <;>
    simp [isUndeliverableHit, undelivOutcome, Bool.and_eq_true, decide_eq_true_eq]
  intros
  omega

theorem not_deliv_of_undeliv (r : SmtpResult) (h : undelivOutcome r) :
    isDeliverableHit r = false := by
  cases hd : isDeliverableHit r
  · rfl
  · obtain ⟨_, c, hc, h2, h3⟩ := (isDeliverableHit_iff r).1 hd
    obtain ⟨c', hc', h5, h6⟩ := h
    rw [hc] at hc'
    cases hc'
    omega

theorem tryMxHosts_all_skip (probe : String → SmtpResult) (mxs : List MxRecord)
    (h : ∀ mx ∈ mxs, isDeliverableHit (probe mx.exchange) = false ∧
          isUndeliverableHit (probe mx.exchange) = false) :
    tryMxHosts probe mxs = (unknownResult, mxs.map fun mx => mx.exchange) := by
  induction mxs with
  | nil => rfl
  | cons mx rest ih =>
      have h1 := h mx (List.mem_cons_self mx rest)
      have h2 := ih fun m hm => h m (List.mem_cons_of_mem mx hm)
      simp [tryMxHosts, h1.1, h1.2, h2]

theorem tryMxHosts_first_definitive (probe : String → SmtpResult)
    (pre : List MxRecord) (mx : MxRecord) (post : List MxRecord)
    (hpre : ∀ mx' ∈ pre, isDeliverableHit (probe mx'.exchange) = false ∧
             isUndeliverableHit (probe mx'.exchange) = false) :
    tryMxHosts probe (pre ++ mx :: post) =
      ((if isDeliverableHit (probe mx.exchange) then
          mkDeliverable mx.exchange (probe mx.exchange)
        else if isUndeliverableHit (probe mx.exchange) then
          mkUndeliverable mx.exchange (probe mx.exchange)
        else (tryMxHosts probe post).1),
       ((pre.map fun r => r.exchange) ++
        (if isDeliverableHit (probe mx.exchange) ∨ isUndeliverableHit (probe mx.exchange) then
           [mx.exchange]
         else mx.exchange :: (tryMxHosts probe post).2))) := by
  induction pre with
  | nil =>
      by_cases h1 : isDeliverableHit (probe mx.exchange) = true
      · simp [tryMxHosts, h1]
      · by_cases h2 : isUndeliverableHit (probe mx.exchange) = true
        · simp [tryMxHosts, h1, h2]
        · simp [tryMxHosts, h1, h2]
  | cons p pre' ih =>
      have hp := hpre p (List.mem_cons_self p pre')
      have hrest := ih fun m hm => hpre m (List.mem_cons_of_mem p hm)
      simp only [List.cons_append, tryMxHosts, hp.1, hp.2, if_false, Bool.false_eq_true,
        List.map_cons]
      simp [hrest]

theorem tryMxHosts_probes_in_order (probe : String → SmtpResult) (mxs : List MxRecord) :
    ∃ t, (tryMxHosts probe mxs).2 ++ t = mxs.map fun mx => mx.exchange := by
  induction mxs with
  | nil => exact ⟨[], rfl⟩
  | cons mx rest ih =>
      by_cases h1 : isDeliverableHit (probe mx.exchange) = true
      · exact ⟨rest.map fun r => r.exchange, by simp [tryMxHosts, h1]⟩
      · by_cases h2 : isUndeliverableHit (probe mx.exchange) = true
        · exact ⟨rest.map fun r => r.exchange, by simp [tryMxHosts, h1, h2]⟩
        · obtain ⟨t, ht⟩ := ih
          exact ⟨t, by simp [tryMxHosts, h1, h2, ht]⟩

/-! Helper lemmas about the MX priority sort. -/

theorem insertByPriority_perm (x : MxRecord) (l : List MxRecord) :
    List.Perm (insertByPriority x l) (x :: l) := by
  induction l with
  | nil => exact List.Perm.refl _
  | cons y ys ih =>
      by_cases h : x.priority ≤ y.priority
      · simp [insertByPriority, h]
      · simp only [insertByPriority, if_neg h]
        exact List.Perm.trans (List.Perm.cons y ih) (List.Perm.swap x y ys)

theorem sortMx_perm (l : List MxRecord) : List.Perm (sortMx l) l := by
  induction l with
  | nil => exact List.Perm.refl _
  | cons x xs ih =>
      exact List.Perm.trans (insertByPriority_perm x (sortMx xs)) (List.Perm.cons x ih)

theorem insertByPriority_sorted (x : MxRecord) (l : List MxRecord)
    (h : l.Pairwise fun a b => a.priority ≤ b.priority) :
    (insertByPriority x l).Pairwise fun a b => a.priority ≤ b.priority := by
  induction l with
  | nil => simp [insertByPriority]
  | cons y ys ih =>
      rw [List.pairwise_cons] at h
      by_cases hxy : x.priority ≤ y.priority
      · rw [insertByPriority, if_pos hxy, List.pairwise_cons]
        refine ⟨?_, List.pairwise_cons.2 h⟩
        intro z hz
        rcases List.mem_cons.1 hz with hz | hz
        · rw [hz]
          exact hxy
        · exact le_trans hxy (h.1 z hz)
      · rw [insertByPriority, if_neg hxy, List.pairwise_cons]
        refine ⟨?_, ih h.2⟩
        intro z hz
        rcases List.mem_cons.1 ((insertByPriority_perm x ys).mem_iff.1 hz) with hz | hz
        · rw [hz]
          omega
        · exact h.1 z hz

theorem sortMx_sorted (l : List MxRecord) :
    (sortMx l).Pairwise fun a b => a.priority ≤ b.priority := by
  induction l with
  | nil => simp [sortMx]
  | cons x xs ih => exact insertByPriority_sorted x (sortMx xs) ih

/-! Helper lemmas about the at-sign split and the format check. -/

theorem splitOnChar_ne_nil (sep : Char) (l : List Char) :
    splitOnChar sep l ≠ [] := by
  induction l with
  | nil => simp [splitOnChar]
  | cons c cs ih =>
      by_cases hc : c = sep
      · simp [splitOnChar, hc]
      · rw [splitOnChar, if_neg hc]
        rcases hs : splitOnChar sep cs with _ | ⟨p, ps⟩
        · simp
        · simp

theorem splitOnChar_singleton (sep : Char) (l x : List Char)
    (h : splitOnChar sep l = [x]) : l = x ∧ sep ∉ x := by
  induction l generalizing x with
  | nil =>
      rw [splitOnChar] at h
      injection h with h1 h2
      subst h1
      exact ⟨rfl, by simp⟩
  | cons c cs ih =>
      by_cases hc : c = sep
      · rw [splitOnChar, if_pos hc] at h
        injection h with h1 h2
        exact absurd h2 (splitOnChar_ne_nil sep cs)
      · rw [splitOnChar, if_neg hc] at h
        rcases hs : splitOnChar sep cs with _ | ⟨p, ps⟩
        · exact absurd hs (splitOnChar_ne_nil sep cs)
        · rw [hs] at h
          injection h with h1 h2
          subst h2
          subst h1
          obtain ⟨hcs, hmem⟩ := ih p hs
          subst hcs
          refine ⟨rfl, ?_⟩
          intro hmem2
          rcases List.mem_cons.1 hmem2 with h' | h'
          · exact hc h'.symm
          · exact hmem h'

theorem splitOnChar_pair (sep : Char) (l a b : List Char)
    (h : splitOnChar sep l = [a, b]) : l = a ++ sep :: b ∧ sep ∉ a ∧ sep ∉ b := by
  induction l generalizing a with
  | nil =>
      rw [splitOnChar] at h
      injection h with h1 h2
      injection h2
  | cons c cs ih =>
      by_cases hc : c = sep
      · rw [splitOnChar, if_pos hc] at h
        injection h with h1 h2
        obtain ⟨hcs, hmem⟩ := splitOnChar_singleton sep cs b h2
        subst hcs
        subst h1
        exact ⟨by simp [hc], by simp, hmem⟩
      · rw [splitOnChar, if_neg hc] at h
        rcases hs : splitOnChar sep cs with _ | ⟨p, ps⟩
        · exact absurd hs (splitOnChar_ne_nil sep cs)
        · rw [hs] at h
          injection h with h1 h2
          subst h2
          subst h1
          obtain ⟨hcs, hma, hmb⟩ := ih p hs
          subst hcs
          refine ⟨rfl, ?_, hmb⟩
          intro hmem2
          rcases List.mem_cons.1 hmem2 with h' | h'
          · exact hc h'.symm
          · exact hma h'

theorem valid_split (email : String) (h : isEmailFormatValid email = true) :
    ∃ lp dp, splitOnChar '@' email.toList = [lp, dp] ∧
      0 < lp.length ∧ lp.all isAtomChar = true ∧
      dp.all isAtomChar = true ∧ hasInnerDot dp = true := by
  unfold isEmailFormatValid at h
  rcases hs : splitOnChar '@' email.toList with _ | ⟨a, _ | ⟨b, _ | ⟨d, ds⟩⟩⟩ <;>
    rw [hs] at h <;> simp only [Bool.and_eq_true, decide_eq_true_eq] at h
  · cases h
  · cases h
  · exact ⟨a, b, rfl, h.1.1.1, h.1.1.2, h.1.2, h.2⟩
  · cases h

theorem mem_dot_of_hasInnerDot (l : List Char) (h : hasInnerDot l = true) :
    '.' ∈ l := by
  rcases l with _ | ⟨c, rest⟩
  · cases h
  · rw [hasInnerDot] at h
    have hm : '.' ∈ rest.dropLast := List.mem_of_elem_eq_true h
    exact List.mem_cons_of_mem c ((List.dropLast_sublist rest).subset hm)

theorem hit_false_of_not_deliv (r : SmtpResult) (h : ¬ delivOutcome r) :
    isDeliverableHit r = false := by
  cases hd : isDeliverableHit r
  · rfl
  · exact absurd ((isDeliverableHit_iff r).1 hd) h

theorem hit_false_of_not_undeliv (r : SmtpResult) (h : ¬ undelivOutcome r) :
    isUndeliverableHit r = false := by
  cases hd : isUndeliverableHit r
  · rfl
  · exact absurd ((isUndeliverableHit_iff r).1 hd) h

theorem stepDispatch_clearTimer_on_resolve (cfg : ProbeConfig) (t : String)
    (s : SessionState) (code? : Option Nat) (lastLine : List Char)
    (hres : s.resolved = none)
    (h : (stepDispatch cfg t s code? lastLine).1.resolved ≠ none) :
    SockAct.clearTimer ∈ (stepDispatch cfg t s code? lastLine).2 := by
  unfold stepDispatch at h ⊢
  rcases code? with _ | c
  · exact absurd hres h
  · split_ifs at h ⊢ <;> simp_all [resolveWith, hres] <;>
      split_ifs at h ⊢ <;> simp_all

theorem handleEvent_clearTimer_on_resolve (cfg : ProbeConfig) (t : String)
    (s : SessionState) (e : SockEvent) (hres : s.resolved = none)
    (h : (handleEvent cfg t s e).1.resolved ≠ none) :
    e = SockEvent.timerFire ∨ SockAct.clearTimer ∈ (handleEvent cfg t s e).2 := by
  cases e with
  | timerFire => exact Or.inl rfl
  | data chunk =>
      refine Or.inr ?_
      revert h
      show (onData cfg t s chunk).1.resolved ≠ none →
        SockAct.clearTimer ∈ (onData cfg t s chunk).2
      unfold onData
      split_ifs with hcrlf
      · intro h
        exact absurd hres h
      · rcases hll : lastNonEmptyLine (s.dataBuffer ++ chunk) with _ | lastLine
        · intro h
          exact absurd hres h
        · intro h
          exact stepDispatch_clearTimer_on_resolve cfg t _ _ _ hres h
  | sockError m =>
      by_cases hf : s.finished = true
      · rw [(handleEvent_guarded_noop cfg t s hf).2.1 m] at h
        exact absurd hres h
      · refine Or.inr ?_
        simp [handleEvent, hf]
  | sockEnd =>
      by_cases hf : s.finished = true
      · rw [(handleEvent_guarded_noop cfg t s hf).2.2] at h
        exact absurd hres h
      · refine Or.inr ?_
        simp [handleEvent, hf]

/-! The claims. -/

/-- C2: a session at step 3 (awaiting the RCPT TO reply) that receives a
CRLF-terminated reply whose final non-empty line parses to code c
resolves exactly there, with success exactly when 200 <= c < 300
(Accepted) and a non-success outcome otherwise (Rejected for the 5xx
band, Inconclusive for any other parsed code), always carrying c and the
line; in every case the same callback clears the timer, sends QUIT and
closes the connection, without waiting for the QUIT reply. -/
theorem c2_step3_decision (cfg : ProbeConfig) (t : String) (s : SessionState)
    (chunk lastLine : List Char) (c : Nat)
    (hstep : s.step = 3) (hres : s.resolved = none)
    (hend : endsWithCRLF (s.dataBuffer ++ chunk) = true)
    (hlast : lastNonEmptyLine (s.dataBuffer ++ chunk) = some lastLine)
    (hcode : parseCode lastLine = some c) :
    handleEvent cfg t s (SockEvent.data chunk) =
      ({ s with
          dataBuffer := [],
          finished := true,
          resolved := some { success := decide (200 ≤ c) && decide (c < 300),
                             code := some c, message := some (String.mk lastLine) } },
       [SockAct.clearTimer, SockAct.send ("QUIT"), SockAct.endConn]) := by
  rw [onData_framed cfg t s chunk lastLine hend hlast, hcode,
    stepDispatch_decide_point cfg t { s with dataBuffer := [] } c lastLine hstep]
  simp [resolveWith, hres]

/-- C2 witness: a 250 reply at step 3 resolves success with code 250,
sending QUIT and closing in the same event. -/
theorem c2_step3_decision_witness :
    handleEvent defaultConfig ("user@example.com")
        { dataBuffer := [], step := 3, finished := false, resolved := none }
        (SockEvent.data (("250 ok" ++ crlf).toList)) =
      ({ dataBuffer := [], step := 3, finished := true,
         resolved := some { success := true, code := some 250, message := some ("250 ok") } },
       [SockAct.clearTimer, SockAct.send ("QUIT"), SockAct.endConn]) := by
  have h := c2_step3_decision defaultConfig ("user@example.com")
    { dataBuffer := [], step := 3, finished := false, resolved := none }
    (("250 ok" ++ crlf).toList) (("250 ok").toList) 250 rfl rfl
    (by decide) (by decide) (by decide)
  rw [h]
  decide

/-- C5 counterexample: at step 3 a CRLF-terminated reply whose final
non-empty line is malformed (no leading three-digit code) does NOT
resolve the session to an Inconclusive outcome as the claim states: the
callback clears the buffer and returns, the promise stays unresolved and
no QUIT is sent. -/
theorem c5_malformed_does_not_resolve :
    handleEvent defaultConfig ("user@example.com")
        { dataBuffer := [], step := 3, finished := false, resolved := none }
        (SockEvent.data (("garbled reply" ++ crlf).toList)) =
      ({ dataBuffer := [], step := 3, finished := false, resolved := none }, []) := by
  decide

/-- C5 (amended): at step 3 a CRLF-terminated buffer whose final
non-empty line is malformed is discarded rather than classified: the
callback resets the buffer and performs no socket action, leaving the
session unresolved and still waiting (only a later parseable reply, the
timeout, a socket error or a close resolves it). -/
theorem c5_malformed_line_ignored (cfg : ProbeConfig) (t : String)
    (s : SessionState) (chunk lastLine : List Char)
    (hstep : s.step = 3)
    (hend : endsWithCRLF (s.dataBuffer ++ chunk) = true)
    (hlast : lastNonEmptyLine (s.dataBuffer ++ chunk) = some lastLine)
    (hmal : parseCode lastLine = none) :
    handleEvent cfg t s (SockEvent.data chunk) = ({ s with dataBuffer := [] }, []) := by
  rw [onData_framed cfg t s chunk lastLine hend hlast, hmal]
  rfl

/-- C5 witness: a malformed reply at step 3 clears the buffer and leaves
the session pending. -/
theorem c5_malformed_line_ignored_witness :
    handleEvent defaultConfig ("user@example.com")
        { dataBuffer := ("partial ").toList, step := 3, finished := false, resolved := none }
        (SockEvent.data (("junk" ++ crlf).toList)) =
      ({ dataBuffer := [], step := 3, finished := false, resolved := none }, []) := by
  have h := c5_malformed_line_ignored defaultConfig ("user@example.com")
    { dataBuffer := ("partial ").toList, step := 3, finished := false, resolved := none }
    (("junk" ++ crlf).toList) (("partial junk").toList) rfl
    (by decide) (by decide) (by decide)
  rw [h]

/-- C6 counterexample: a parsed code of 354 at step 0 lies outside
[200,300), yet the session still sends the next command HELO and
advances to step 1, because the source only tests for code at least
400. -/
theorem c6_code_354_still_advances :
    handleEvent defaultConfig ("user@example.com") initialSession
        (SockEvent.data (("354 go ahead" ++ crlf).toList)) =
      ({ dataBuffer := [], step := 1, finished := false, resolved := none },
       [SockAct.send ("HELO example.com")]) ∧
    ¬ (200 ≤ 354 ∧ 354 < 300) := by
  decide

/-- C6 (amended): at steps 0 to 2 the next command of the fixed sequence
(HELO, then MAIL FROM, then RCPT TO) is sent exactly when the parsed code
of the previous reply is below 400 - any band from 0xx to 3xx advances,
not only [200,300); for a parsed code of 400 or above no next command is
sent. -/
theorem c6_next_command_iff_code_below_400 (cfg : ProbeConfig) (t : String)
    (s : SessionState) (chunk lastLine : List Char) (c : Nat)
    (hstep : s.step ≤ 2)
    (hend : endsWithCRLF (s.dataBuffer ++ chunk) = true)
    (hlast : lastNonEmptyLine (s.dataBuffer ++ chunk) = some lastLine)
    (hcode : parseCode lastLine = some c) :
    (c < 400 →
      handleEvent cfg t s (SockEvent.data chunk) =
        ({ s with dataBuffer := [], step := s.step + 1 },
         [SockAct.send (nextCommand cfg t s.step)])) ∧
    (400 ≤ c →
      ∀ cmd, SockAct.send cmd ∉ (handleEvent cfg t s (SockEvent.data chunk)).2) := by
  constructor
  · intro hc
    rw [onData_framed cfg t s chunk lastLine hend hlast, hcode,
      stepDispatch_advance cfg t { s with dataBuffer := [] } c lastLine hstep hc]
  · intro hc cmd
    rw [onData_framed cfg t s chunk lastLine hend hlast, hcode,
      stepDispatch_early_fail cfg t { s with dataBuffer := [] } c lastLine hstep hc]
    simp

/-- C6 witness: at step 1 a 250 reply sends MAIL FROM and advances, while
a 452 reply sends no command at all. -/
theorem c6_next_command_iff_code_below_400_witness :
    (handleEvent defaultConfig ("user@example.com")
        { dataBuffer := [], step := 1, finished := false, resolved := none }
        (SockEvent.data (("250 ok" ++ crlf).toList)) =
      ({ dataBuffer := [], step := 2, finished := false, resolved := none },
       [SockAct.send ("MAIL FROM:<verify@example.com>")])) ∧
    SockAct.send ("RCPT TO:<user@example.com>") ∉
      (handleEvent defaultConfig ("user@example.com")
        { dataBuffer := [], step := 1, finished := false, resolved := none }
        (SockEvent.data (("452 mailbox full" ++ crlf).toList))).2 := by
  constructor
  · have h := (c6_next_command_iff_code_below_400 defaultConfig ("user@example.com")
      { dataBuffer := [], step := 1, finished := false, resolved := none }
      (("250 ok" ++ crlf).toList) (("250 ok").toList) 250
      (by decide) (by decide) (by decide) (by decide)).1 (by decide)
    rw [h]
    decide
  · exact (c6_next_command_iff_code_below_400 defaultConfig ("user@example.com")
      { dataBuffer := [], step := 1, finished := false, resolved := none }
      (("452 mailbox full" ++ crlf).toList) (("452 mailbox full").toList) 452
      (by decide) (by decide) (by decide) (by decide)).2 (by decide)
      (("RCPT TO:<user@example.com>"))

/-- C1 counterexample: the claim that ANY second event arriving after
resolution is a no-op fails for data events, because the data callback is
not guarded by the finished flag: after a 500 greeting resolves the
session, a further data event (the reply the server sends to QUIT)
performs a send action and advances the step counter.  Only the settled
outcome is protected. -/
theorem c1_second_data_event_not_noop :
    (runEvents defaultConfig ("user@example.com") initialSession
        [SockEvent.data (("500 rejected" ++ crlf).toList)]).1 =
      { dataBuffer := [], step := 0, finished := true,
        resolved := some { success := false, code := some 500,
                           message := some ("500 rejected") } } ∧
    (handleEvent defaultConfig ("user@example.com")
        { dataBuffer := [], step := 0, finished := true,
          resolved := some { success := false, code := some 500,
                             message := some ("500 rejected") } }
        (SockEvent.data (("221 bye" ++ crlf).toList))).2 =
      [SockAct.send ("HELO example.com")] ∧
    (handleEvent defaultConfig ("user@example.com")
        { dataBuffer := [], step := 0, finished := true,
          resolved := some { success := false, code := some 500,
                             message := some ("500 rejected") } }
        (SockEvent.data (("221 bye" ++ crlf).toList))).1.step = 1 := by
  decide

/-- C1 (amended): exactly one ProbeOutcome is produced per session in the
sense that the first resolution wins: once the promise is settled its
value never changes under any further events, and the timeout, socket
error and socket close callbacks are complete no-ops once finished is
set.  The data callback, however, carries no finished guard: a second
data event after resolution cannot alter the outcome but can still
perform session actions (see the counterexample). -/
theorem c1_outcome_settled_once (cfg : ProbeConfig) (t : String)
    (s : SessionState) (r : SmtpResult) (es : List SockEvent)
    (h : s.resolved = some r) (hfin : s.finished = true) :
    (runEvents cfg t s es).1.resolved = some r ∧
    handleEvent cfg t s SockEvent.timerFire = (s, []) ∧
    (∀ m, handleEvent cfg t s (SockEvent.sockError m) = (s, [])) ∧
    handleEvent cfg t s SockEvent.sockEnd = (s, []) :=
  ⟨runEvents_resolved_of_some cfg t s es r h,
   (handleEvent_guarded_noop cfg t s hfin).1,
   (handleEvent_guarded_noop cfg t s hfin).2.1,
   (handleEvent_guarded_noop cfg t s hfin).2.2⟩

/-- C1 witness: a session resolved with code 500 keeps that outcome
across a timer event, a close event and a late data event, and the
guarded timer callback is a no-op. -/
theorem c1_outcome_settled_once_witness :
    (runEvents defaultConfig ("user@example.com")
        { dataBuffer := [], step := 0, finished := true,
          resolved := some { success := false, code := some 500,
                             message := some ("500 rejected") } }
        [SockEvent.timerFire, SockEvent.sockEnd,
         SockEvent.data (("221 bye" ++ crlf).toList)]).1.resolved =
      some { success := false, code := some 500, message := some ("500 rejected") } ∧
    handleEvent defaultConfig ("user@example.com")
        { dataBuffer := [], step := 0, finished := true,
          resolved := some { success := false, code := some 500,
                             message := some ("500 rejected") } }
        SockEvent.timerFire =
      ({ dataBuffer := [], step := 0, finished := true,
         resolved := some { success := false, code := some 500,
                            message := some ("500 rejected") } }, []) := by
  have h := c1_outcome_settled_once defaultConfig ("user@example.com")
    { dataBuffer := [], step := 0, finished := true,
      resolved := some { success := false, code := some 500,
                         message := some ("500 rejected") } }
    { success := false, code := some 500, message := some ("500 rejected") }
    [SockEvent.timerFire, SockEvent.sockEnd,
     SockEvent.data (("221 bye" ++ crlf).toList)] rfl rfl
  exact ⟨h.1, h.2.1⟩

/-- C4 counterexample: with a 421 greeting the session does resolve at
step 0, but the claim that no later protocol step is ever executed fails
at the callback level: a subsequent data event (the reply the server
sends to QUIT) re-runs the unguarded data callback, which calls send for
HELO and advances the step counter past step 0.  The write fails on the
half-closed socket, so HELO still never reaches the wire (see the amended
theorem). -/
theorem c4_late_event_runs_later_step :
    (runEvents defaultConfig ("user@example.com") initialSession
        [SockEvent.data (("421 service not available" ++ crlf).toList)]).1 =
      { dataBuffer := [], step := 0, finished := true,
        resolved := some { success := false, code := some 421,
                           message := some ("421 service not available") } } ∧
    (handleEvent defaultConfig ("user@example.com")
        { dataBuffer := [], step := 0, finished := true,
          resolved := some { success := false, code := some 421,
                             message := some ("421 service not available") } }
        (SockEvent.data (("221 bye" ++ crlf).toList))).2 =
      [SockAct.send ("HELO example.com")] ∧
    (handleEvent defaultConfig ("user@example.com")
        { dataBuffer := [], step := 0, finished := true,
          resolved := some { success := false, code := some 421,
                             message := some ("421 service not available") } }
        (SockEvent.data (("221 bye" ++ crlf).toList))).1.step = 1 := by
  decide

/-- C4 (amended): at steps 0 to 2 a parsed reply code of 400 or more
resolves the session immediately to a non-success outcome carrying the
code and its line, clears the timer, and half-closes the socket with the
QUIT string; from that reply on, QUIT is the only string that ever
reaches the wire in any continuation of the session (a later event may
re-enter the unguarded data callback and move the internal step counter,
but its writes fail on the ended socket), so no later protocol command -
in particular HELO after a 421 greeting - is ever transmitted; a 5xx
outcome is classified undeliverable by the orchestrator, while a 4xx
outcome is skipped as inconclusive. -/
theorem c4_early_failure_short_circuit (cfg : ProbeConfig) (t : String)
    (s : SessionState) (chunk lastLine : List Char) (c : Nat) (es : List SockEvent)
    (hstep : s.step ≤ 2) (hres : s.resolved = none)
    (hend : endsWithCRLF (s.dataBuffer ++ chunk) = true)
    (hlast : lastNonEmptyLine (s.dataBuffer ++ chunk) = some lastLine)
    (hcode : parseCode lastLine = some c) (hc : 400 ≤ c) :
    (handleEvent cfg t s (SockEvent.data chunk) =
      ({ s with
          dataBuffer := [],
          finished := true,
          resolved := some (earlyFailResult c lastLine) },
       [SockAct.clearTimer, SockAct.endWith ("QUIT" ++ crlf)])) ∧
    transmitted (runEvents cfg t s (SockEvent.data chunk :: es)).2 = ["QUIT" ++ crlf] ∧
    (500 ≤ c → c < 600 →
      isUndeliverableHit (earlyFailResult c lastLine) = true ∧
      isDeliverableHit (earlyFailResult c lastLine) = false) ∧
    (c < 500 ∨ 600 ≤ c →
      isUndeliverableHit (earlyFailResult c lastLine) = false ∧
      isDeliverableHit (earlyFailResult c lastLine) = false) := by
  have h1 : handleEvent cfg t s (SockEvent.data chunk) =
      ({ s with
          dataBuffer := [],
          finished := true,
          resolved := some (earlyFailResult c lastLine) },
       [SockAct.clearTimer, SockAct.endWith ("QUIT" ++ crlf)]) := by
    rw [onData_framed cfg t s chunk lastLine hend hlast, hcode,
      stepDispatch_early_fail cfg t { s with dataBuffer := [] } c lastLine hstep hc]
    simp [resolveWith, hres]
  refine ⟨h1, ?_, ?_, ?_⟩
  · simp only [runEvents, h1]
    simp [transmitted, transmittedFrom, actEffect, transmittedFrom_true]
  · intro h5 h6
    refine ⟨(isUndeliverableHit_iff _).2 ⟨c, rfl, h5, h6⟩,
      not_deliv_of_undeliv _ ⟨c, rfl, h5, h6⟩⟩
  · intro hout
    constructor
    · simp only [isUndeliverableHit, earlyFailResult]
      rcases hout with h' | h' <;> simp <;> omega
    · simp [isDeliverableHit, earlyFailResult]

/-- C4 witness: a 421 greeting resolves the session at step 0, and in the
continuation where the server also answers the QUIT, the only string
transmitted on the wire is QUIT - HELO is never transmitted; 421 is
skipped by the orchestrator. -/
theorem c4_early_failure_short_circuit_witness :
    (handleEvent defaultConfig ("user@example.com") initialSession
        (SockEvent.data (("421 service not available" ++ crlf).toList)) =
      ({ dataBuffer := [], step := 0, finished := true,
         resolved := some (earlyFailResult 421 (("421 service not available").toList)) },
       [SockAct.clearTimer, SockAct.endWith ("QUIT" ++ crlf)])) ∧
    transmitted (runEvents defaultConfig ("user@example.com") initialSession
        [SockEvent.data (("421 service not available" ++ crlf).toList),
         SockEvent.data (("221 bye" ++ crlf).toList)]).2 = ["QUIT" ++ crlf] ∧
    isUndeliverableHit (earlyFailResult 421 (("421 service not available").toList)) = false ∧
    isDeliverableHit (earlyFailResult 421 (("421 service not available").toList)) = false := by
  have h := c4_early_failure_short_circuit defaultConfig ("user@example.com") initialSession
    (("421 service not available" ++ crlf).toList) (("421 service not available").toList) 421
    [SockEvent.data (("221 bye" ++ crlf).toList)]
    (by decide) rfl (by decide) (by decide) (by decide) (by decide)
  exact ⟨h.1, h.2.1, h.2.2.2 (Or.inl (by decide))⟩

/-- C7: smtpVerifyMailbox only ever resolves, with every failure mode
classified: the fixed timeout constant is 15000 milliseconds and its
expiry resolves success false with message Timeout and no code while
destroying the socket; a socket error resolves with the underlying error
text and no code; a close before resolution resolves with the fixed
unexpected-close message and no code; every event other than the timer
firing that resolves the session clears the timer in the same callback;
and an outcome carrying no code is never classified deliverable or
undeliverable by the orchestrator. -/
theorem c7_failure_modes_classified (cfg : ProbeConfig) (t : String) :
    SMTP_TIMEOUT_MS = 15000 ∧
    (∀ s : SessionState, s.finished = false → s.resolved = none →
      handleEvent cfg t s SockEvent.timerFire =
        ({ s with
            finished := true,
            resolved := some { success := false, code := none,
                               message := some ("Timeout") } },
         [SockAct.destroy]) ∧
      (∀ m, handleEvent cfg t s (SockEvent.sockError m) =
        ({ s with
            finished := true,
            resolved := some { success := false, code := none, message := some m } },
         [SockAct.clearTimer])) ∧
      handleEvent cfg t s SockEvent.sockEnd =
        ({ s with
            finished := true,
            resolved := some { success := false, code := none,
                               message := some ("Connection ended unexpectedly") } },
         [SockAct.clearTimer])) ∧
    (∀ (s : SessionState) (e : SockEvent), s.resolved = none →
      (handleEvent cfg t s e).1.resolved ≠ none →
      e = SockEvent.timerFire ∨ SockAct.clearTimer ∈ (handleEvent cfg t s e).2) ∧
    (∀ r : SmtpResult, r.code = none →
      isDeliverableHit r = false ∧ isUndeliverableHit r = false) := by
  refine ⟨rfl, ?_, ?_, ?_⟩
  · intro s hf hres
    refine ⟨?_, fun m => ?_, ?_⟩ <;> simp [handleEvent, hf, resolveWith, hres]
  · intro s e hres h
    exact handleEvent_clearTimer_on_resolve cfg t s e hres h
  · intro r hc
    rcases r with ⟨succ, code, msg⟩
    cases hc
    exact ⟨by simp [isDeliverableHit], by simp [isUndeliverableHit]⟩

/-- C7 witness: the timeout constant is 15000 and a timer expiry on the
fresh session resolves it with the Timeout outcome and no code, which the
orchestrator classifies neither deliverable nor undeliverable. -/
theorem c7_failure_modes_classified_witness :
    SMTP_TIMEOUT_MS = 15000 ∧
    handleEvent defaultConfig ("user@example.com") initialSession SockEvent.timerFire =
      ({ dataBuffer := [], step := 0, finished := true,
         resolved := some { success := false, code := none,
                            message := some ("Timeout") } },
       [SockAct.destroy]) ∧
    isDeliverableHit { success := false, code := none, message := some ("Timeout") } = false := by
  have h := c7_failure_modes_classified defaultConfig ("user@example.com")
  refine ⟨h.1, (h.2.1 initialSession rfl rfl).1, ?_⟩
  exact (h.2.2.2 { success := false, code := none, message := some ("Timeout") } rfl).1

/-- C3: the orchestrator probes hosts one at a time in list order and
folds the outcomes: with every earlier host neither Accepted nor
Rejected, a host whose outcome is a success with a 2xx code returns
deliverable recording that host, code and message, probing no further
host; a host whose outcome carries a 5xx code returns undeliverable
likewise; all other outcomes are skipped; and a list exhausted without a
definitive outcome returns unknown after probing every host. -/
theorem c3_orchestrator_fold (probe : String → SmtpResult) (mxs : List MxRecord) :
    ((∀ mx ∈ mxs, ¬ delivOutcome (probe mx.exchange) ∧ ¬ undelivOutcome (probe mx.exchange)) →
      tryMxHosts probe mxs = (unknownResult, mxs.map fun mx => mx.exchange)) ∧
    (∀ pre mx post, mxs = pre ++ mx :: post →
      (∀ mx' ∈ pre, ¬ delivOutcome (probe mx'.exchange) ∧
        ¬ undelivOutcome (probe mx'.exchange)) →
      ((delivOutcome (probe mx.exchange) →
        tryMxHosts probe mxs =
          (mkDeliverable mx.exchange (probe mx.exchange),
           (pre.map fun r => r.exchange) ++ [mx.exchange])) ∧
       (undelivOutcome (probe mx.exchange) →
        tryMxHosts probe mxs =
          (mkUndeliverable mx.exchange (probe mx.exchange),
           (pre.map fun r => r.exchange) ++ [mx.exchange])))) := by
  constructor
  · intro h
    exact tryMxHosts_all_skip probe mxs fun mx hm =>
      ⟨hit_false_of_not_deliv _ (h mx hm).1, hit_false_of_not_undeliv _ (h mx hm).2⟩
  · intro pre mx post hsplit hpre
    have hpre' : ∀ mx' ∈ pre, isDeliverableHit (probe mx'.exchange) = false ∧
        isUndeliverableHit (probe mx'.exchange) = false := fun m hm =>
      ⟨hit_false_of_not_deliv _ (hpre m hm).1, hit_false_of_not_undeliv _ (hpre m hm).2⟩
    have hkey := tryMxHosts_first_definitive probe pre mx post hpre'
    subst hsplit
    constructor
    · intro hdel
      have hd : isDeliverableHit (probe mx.exchange) = true :=
        (isDeliverableHit_iff _).2 hdel
      rw [hkey]
      simp [hd]
    · intro hund
      have hu : isUndeliverableHit (probe mx.exchange) = true :=
        (isUndeliverableHit_iff _).2 hund
      have hd : isDeliverableHit (probe mx.exchange) = false :=
        not_deliv_of_undeliv _ hund
      rw [hkey]
      simp [hd, hu]

/-- C3 witness: with a first host answering 450 (inconclusive) and a
second answering 550, the fold skips the first host and returns
undeliverable from the second, having probed both in order. -/
theorem c3_orchestrator_fold_witness :
    tryMxHosts probeInconclusiveThenReject
        [{ exchange := "mx1", priority := 10 }, { exchange := "mx2", priority := 20 }] =
      (mkUndeliverable "mx2"
         { success := false, code := some 550, message := some ("550 no such user") },
       ["mx1", "mx2"]) := by
  have hpre : ∀ mx' ∈ [({ exchange := "mx1", priority := 10 } : MxRecord)],
      ¬ delivOutcome (probeInconclusiveThenReject mx'.exchange) ∧
      ¬ undelivOutcome (probeInconclusiveThenReject mx'.exchange) := by
    intro m hm
    rw [List.mem_singleton] at hm
    subst hm
    constructor
    · rintro ⟨hs, -⟩
      simp [probeInconclusiveThenReject] at hs
    · rintro ⟨c, hcod, h5, h6⟩
      simp [probeInconclusiveThenReject] at hcod
      omega
  have h := (c3_orchestrator_fold probeInconclusiveThenReject
      [{ exchange := "mx1", priority := 10 }, { exchange := "mx2", priority := 20 }]).2
      [{ exchange := "mx1", priority := 10 }] { exchange := "mx2", priority := 20 } []
      rfl hpre
  have hund : undelivOutcome (probeInconclusiveThenReject "mx2") :=
    ⟨550, by decide, by omega, by omega⟩
  have h2 := h.2 hund
  rw [h2]
  decide

/-- C8: the MX sort orders records ascending by priority and permutes
the input; resolveMx applies it to every non-empty answer; the
orchestrator probes a prefix of the host list in list order; and for
priorities [20,10,30] the probe order is the host of priority 10, then
20, then 30. -/
theorem c8_mx_priority_order :
    (∀ l : List MxRecord,
      (sortMx l).Pairwise (fun a b => a.priority ≤ b.priority) ∧
      List.Perm (sortMx l) l) ∧
    (∀ raw : List MxRecord, raw ≠ [] →
      resolveMxModel (Except.ok raw) = Except.ok (sortMx raw)) ∧
    (∀ (probe : String → SmtpResult) (mxs : List MxRecord),
      ∃ t, (tryMxHosts probe mxs).2 ++ t = mxs.map fun mx => mx.exchange) ∧
    ((tryMxHosts (fun _ => { success := false, code := none, message := some ("Timeout") })
        (sortMx [{ exchange := "h20", priority := 20 },
                 { exchange := "h10", priority := 10 },
                 { exchange := "h30", priority := 30 }])).2 = ["h10", "h20", "h30"]) := by
  refine ⟨fun l => ⟨sortMx_sorted l, sortMx_perm l⟩, ?_, tryMxHosts_probes_in_order, ?_⟩
  · intro raw hraw
    rcases raw with _ | ⟨x, xs⟩
    · exact absurd rfl hraw
    · rfl
  · decide

/-- C8 witness: resolveMx sorts the exchangers of priorities [20,10,30]
into ascending order 10, 20, 30. -/
theorem c8_mx_priority_order_witness :
    resolveMxModel (Except.ok
        [{ exchange := "h20", priority := 20 },
         { exchange := "h10", priority := 10 },
         { exchange := "h30", priority := 30 }]) =
      Except.ok
        [{ exchange := "h10", priority := 10 },
         { exchange := "h20", priority := 20 },
         { exchange := "h30", priority := 30 }] := by
  have h := c8_mx_priority_order.2.1
    [{ exchange := "h20", priority := 20 },
     { exchange := "h10", priority := 10 },
     { exchange := "h30", priority := 30 }] (by decide)
  rw [h]
  have hsorted : sortMx
      [{ exchange := "h20", priority := 20 },
       { exchange := "h10", priority := 10 },
       { exchange := "h30", priority := 30 }] =
      [{ exchange := "h10", priority := 10 },
       { exchange := "h20", priority := 20 },
       { exchange := "h30", priority := 30 }] := by decide
  rw [hsorted]

/-- C9: a string with no at-sign, or whose domain part (the index-one
element of the at-split) has no dot, fails the regex pre-check, and
verifyEmail then returns the invalid format classification with valid
false, consulting neither DNS nor any SMTP host. -/
theorem c9_invalid_format_no_network
    (dnsLookup : Option String → Except String (List MxRecord))
    (probe : String → SmtpResult) (email : String)
    (h : '@' ∉ email.toList ∨ ∃ d, getDomain email = some d ∧ '.' ∉ d.toList) :
    verifyEmailModel dnsLookup probe email =
      { result := invalidFormatResult, dnsQueried := false, probedHosts := [] } ∧
    invalidFormatResult.valid = false := by
  have hv : isEmailFormatValid email = false := by
    cases hb : isEmailFormatValid email
    · rfl
    · exfalso
      obtain ⟨lp, dp, hs, hlp, hlpa, hdpa, hdot⟩ := valid_split email hb
      obtain ⟨hl, hna, hnb⟩ := splitOnChar_pair '@' email.toList lp dp hs
      rcases h with h1 | ⟨d, hd, hnd⟩
      · refine h1 ?_
        rw [hl]
        simp
      · unfold getDomain at hd
        rw [hs] at hd
        simp at hd
        subst hd
        exact hnd (mem_dot_of_hasInnerDot dp hdot)
  refine ⟨?_, rfl⟩
  unfold verifyEmailModel
  rw [hv]
  simp

/-- C9 witness: a string without an at-sign yields invalid format with
no DNS query and no probed host. -/
theorem c9_invalid_format_no_network_witness :
    verifyEmailModel (fun _ => Except.error ("nxdomain")) (fun _ => { success := false })
        ("plainaddress") =
      { result := invalidFormatResult, dnsQueried := false, probedHosts := [] } :=
  (c9_invalid_format_no_network (fun _ => Except.error ("nxdomain"))
    (fun _ => { success := false }) ("plainaddress") (Or.inl (by decide))).1

/-- C10: a string accepted by the format check contains exactly one
at-sign, so getDomain returns a defined, non-empty domain string that
contains a dot and no whitespace; the undefined out-of-bounds index in
getDomain is unreachable under the format-check guard of its only call
site. -/
theorem c10_getDomain_safe (email : String) (h : isEmailFormatValid email = true) :
    email.toList.count '@' = 1 ∧
    ∃ d, getDomain email = some d ∧ d.toList ≠ [] ∧ '.' ∈ d.toList ∧
      ∀ ch ∈ d.toList, isSpaceJS ch = false := by
  obtain ⟨lp, dp, hs, hlp, hlpa, hdpa, hdot⟩ := valid_split email h
  obtain ⟨hl, hna, hnb⟩ := splitOnChar_pair '@' email.toList lp dp hs
  constructor
  · rw [hl, List.count_append]
    have h1 : lp.count '@' = 0 := List.count_eq_zero.2 hna
    have h2 : dp.count '@' = 0 := List.count_eq_zero.2 hnb
    rw [h1, List.count_cons_self, h2]
  · refine ⟨String.mk dp, ?_, ?_, ?_, ?_⟩
    · unfold getDomain
      rw [hs]
      rfl
    · show (String.mk dp).toList ≠ []
      rcases dp with _ | ⟨ch, rest⟩
      · cases hdot
      · simp [String.toList]
    · exact mem_dot_of_hasInnerDot dp hdot
    · intro ch hch
      have hch' : ch ∈ dp := hch
      have ha := List.all_eq_true.1 hdpa ch hch'
      simp only [isAtomChar, Bool.and_eq_true, Bool.not_eq_true'] at ha
      exact ha.1

/-- C10 witness: the format check accepts a well-formed address whose
domain getDomain extracts. -/
theorem c10_getDomain_safe_witness :
    ("user@example.com").toList.count '@' = 1 ∧
    getDomain ("user@example.com") = some ("example.com") := by
  have h := c10_getDomain_safe ("user@example.com") (by decide)
  exact ⟨h.1, by decide⟩

end EmailVerifier
